import Mathlib

/-!
Verification development for the Sensafe backend (caregiver/patient
device-tracking service).  The definitions below are a shallow embedding of
the TypeScript source: the relational store is a record of lists, handlers
are pure functions from a store state (plus the request data and the current
time in milliseconds) to a response and a new store state, and the Prisma
transaction used by registration is modelled as an `Except` computation whose
error outcome leaves the store untouched.  Times are Nat milliseconds since
the epoch; coordinates are rationals (standing for JS numbers); the bcrypt
hash and the JWT signature are modelled abstractly but executably.
-/

namespace Sensafe

/-- Role tag of a user record (enum UserRecordType in schema.prisma). -/
inductive UserRecordType where
  | PARENT
  | PATIENT
deriving DecidableEq

/-- User row (model User in schema.prisma).  `password` stores the bcrypt
hash, never the plain text. -/
structure User where
  id : String
  email : String
  password : String
  firstName : String
  lastName : String
  recordType : UserRecordType
  phoneNumber : Option String := none
  createdAt : Nat := 0
deriving DecidableEq

/-- Device row (model Device in schema.prisma). -/
structure Device where
  id : String
  name : Option String := none
  serialNumber : String
  patientId : String
  createdAt : Nat := 0
deriving DecidableEq

/-- Geolocation row (model Geolocation in schema.prisma). -/
structure Geolocation where
  id : String
  latitude : Rat
  longitude : Rat
  timestamp : Nat
  deviceId : String
deriving DecidableEq

/-- ParentPatientRelationship row, keyed by the (parentId, patientId) pair. -/
structure ParentPatientRelationship where
  parentId : String
  patientId : String
  assignedAt : Nat := 0
deriving DecidableEq

/-- UserSession row (model UserSession): one issued token, server-side
revocable via `expiresAt`. -/
structure UserSession where
  id : String
  userId : String
  expiresAt : Nat
  createdAt : Nat := 0
deriving DecidableEq

/-- The relational store: one list per table. -/
structure Db where
  users : List User := []
  devices : List Device := []
  geolocations : List Geolocation := []
  relationships : List ParentPatientRelationship := []
  sessions : List UserSession := []
deriving DecidableEq

/-- prisma.user.findUnique({ where: \x7b email \x7d }). -/
def findUserByEmail (db : Db) (email : String) : Option User :=
  db.users.find? (fun u => u.email == email)

/-- prisma.user.findUnique({ where: \x7b id \x7d }). -/
def findUserById (db : Db) (id : String) : Option User :=
  db.users.find? (fun u => u.id == id)

/-- prisma.userSession.findUnique({ where: \x7b id \x7d }). -/
def findSessionById (db : Db) (id : String) : Option UserSession :=
  db.sessions.find? (fun s => s.id == id)

/-- Membership test for a (parentId, patientId) relationship pair (the
composite primary key of ParentPatientRelationship). -/
def pairExists (db : Db) (parentId patientId : String) : Bool :=
  db.relationships.any (fun r => r.parentId == parentId && r.patientId == patientId)

/-- prisma findFirst with orderBy desc on a numeric key: picks an element of
the list whose key is maximal (first such element wins on ties). -/
def argmaxBy (key : α → Nat) : List α → Option α
  | [] => none
  | x :: xs =>
    match argmaxBy key xs with
    | none => some x
    | some y => if key x < key y then some y else some x

theorem argmaxBy_mem {key : α → Nat} {l : List α} {x : α}
    (h : argmaxBy key l = some x) : x ∈ l := by
  induction l generalizing x with
  | nil => simp [argmaxBy] at h
  | cons a as ih =>
    simp only [argmaxBy] at h
    cases hrec : argmaxBy key as with
    | none => rw [hrec] at h; simp at h; simp [h]
    | some y =>
      rw [hrec] at h
      by_cases hk : key a < key y
      · simp [hk] at h; subst h; exact List.mem_cons_of_mem _ (ih hrec)
      · simp [hk] at h; simp [h]

theorem argmaxBy_none_iff {key : α → Nat} {l : List α} :
    argmaxBy key l = none ↔ l = [] := by
  cases l with
  | nil => simp [argmaxBy]
  | cons a as =>
    simp only [argmaxBy]
    constructor
    · intro h
      cases hrec : argmaxBy key as with
      | none => rw [hrec] at h; simp at h
      | some y => rw [hrec] at h; by_cases hk : key a < key y <;> simp [hk] at h
    · intro h; cases h

theorem argmaxBy_maximal {key : α → Nat} {l : List α} {x : α}
    (h : argmaxBy key l = some x) : ∀ y ∈ l, key y ≤ key x := by
  induction l generalizing x with
  | nil => simp [argmaxBy] at h
  | cons a as ih =>
    simp only [argmaxBy] at h
    cases hrec : argmaxBy key as with
    | none =>
      rw [hrec] at h
      simp at h
      subst h
      have hnil : as = [] := argmaxBy_none_iff.mp hrec
      subst hnil
      intro y hy
      simp at hy
      subst hy
      exact le_refl _
    | some z =>
      rw [hrec] at h
      intro y hy
      rcases List.mem_cons.mp hy with h1 | h2
      · subst h1
        by_cases hk : key y < key z
        · simp [hk] at h; subst h; exact le_of_lt hk
        · simp [hk] at h; subst h; exact le_refl _
      · by_cases hk : key a < key z
        · simp [hk] at h; subst h; exact ih hrec y h2
        · simp [hk] at h
          subst h
          exact le_trans (ih hrec y h2) (not_lt.mp hk)

/-- prisma.device.findFirst({ where: \x7b serialNumber \x7d, orderBy:
\x7b createdAt: desc \x7d }): most-recently-created device with the serial. -/
def findLatestDeviceBySerial (db : Db) (serialNumber : String) : Option Device :=
  argmaxBy (fun d => d.createdAt) (db.devices.filter (fun d => d.serialNumber == serialNumber))

/-- prisma.device.findFirst({ where: \x7b patientId \x7d, orderBy:
\x7b createdAt: desc \x7d }): most-recently-created device of the patient. -/
def findLatestDeviceOfPatient (db : Db) (patientId : String) : Option Device :=
  argmaxBy (fun d => d.createdAt) (db.devices.filter (fun d => d.patientId == patientId))

/-- prisma.geolocation.findFirst({ where: \x7b deviceId \x7d, orderBy:
\x7b timestamp: desc \x7d }): most recent geolocation of the device. -/
def findLatestGeoOfDevice (db : Db) (deviceId : String) : Option Geolocation :=
  argmaxBy (fun g => g.timestamp) (db.geolocations.filter (fun g => g.deviceId == deviceId))

/-- Split a character list on a separator character. -/
def splitOnChar (sep : Char) : List Char → List (List Char)
  | [] => [[]]
  | c :: cs =>
    let rest := splitOnChar sep cs
    if c = sep then [] :: rest
    else
      match rest with
      | [] => [[c]]
      | r :: rs => (c :: r) :: rs

/-- Simplified model of the zod email-format check: exactly one at-sign,
a nonempty local part, and a domain of at least two nonempty dot-separated
labels.  No claim depends on the finer points of the zod email regex. -/
def emailOk (s : String) : Bool :=
  match splitOnChar '@' s.data with
  | [lp, dp] =>
    (!lp.isEmpty) &&
      (let labels := splitOnChar '.' dp
       decide (2 ≤ labels.length) && labels.all (fun l => !l.isEmpty))
  | _ => false

def isHexDigit (c : Char) : Bool :=
  ( '0' ≤ c && c ≤ '9') || ( 'a' ≤ c && c ≤ 'f') || ( 'A' ≤ c && c ≤ 'F')

/-- Model of the zod uuid check: 36 characters, dashes at positions
8, 13, 18 and 23, hex digits elsewhere. -/
def isUuidFormat (s : String) : Bool :=
  s.data.length == 36 &&
    (List.range 36).all (fun i =>
      if i == 8 || i == 13 || i == 18 || i == 23 then s.data.get? i == some '-'
      else (s.data.get? i).elim false isHexDigit)

/-- Executable stand-in for bcrypt.hash: an injective tagging of the plain
text (the claims never depend on cryptographic properties of the hash). -/
def bcryptHash (password : String) : String := "bcrypt." ++ password

/-- Executable stand-in for bcrypt.compare. -/
def bcryptCompare (password hash : String) : Bool := hash == bcryptHash password

mutual

/-- JSON values, as far as the token payloads need them. -/
inductive JsonVal where
  | str (s : String)
  | num (n : Int)
  | obj (fields : JsonFields)
deriving DecidableEq

/-- The field list of a JSON object. -/
inductive JsonFields where
  | nil
  | cons (key : String) (value : JsonVal) (rest : JsonFields)
deriving DecidableEq

end

/-- Field lookup in a JSON object field list. -/
def JsonFields.get : JsonFields → String → Option JsonVal
  | .nil, _ => none
  | .cons k v rest, key => if k == key then some v else rest.get key

/-- Property lookup on a decoded JSON object; `none` models JS undefined. -/
def jsonGet (j : JsonVal) (key : String) : Option JsonVal :=
  match j with
  | .obj fields => fields.get key
  | _ => none

/-- Build a JSON object field list from a Lean list literal. -/
def JsonFields.ofList : List (String × JsonVal) → JsonFields
  | [] => .nil
  | (k, v) :: rest => .cons k v (JsonFields.ofList rest)

/-- Property lookup expecting a string value. -/
def jsonGetStr (j : JsonVal) (key : String) : Option String :=
  match jsonGet j key with
  | some (.str s) => some s
  | _ => none

/-- A signed JWT: the payload, the cryptographic expiry stamped by jwt.sign,
and the secret it was signed with (standing for the signature). -/
structure SignedToken where
  payload : JsonVal
  exp : Nat
  signedWith : String
deriving DecidableEq

/-- src/utils/generateToken (quoted in the websocket sources):
`jwt.sign({ email }, process.env.JWT_SECRET!, { expiresIn: '1h' })` —
note that the whole argument is nested under the single key "email". -/
def generateToken (now : Nat) (secret : String) (email : JsonVal) : SignedToken :=
  { payload := .obj (.cons "email" email .nil), exp := now + 3600000,
    signedWith := secret }

inductive VerifyResult where
  | badSignature
  | expired
  | ok (payload : JsonVal)
deriving DecidableEq

/-- jwt.verify: checks the signature, then the cryptographic expiry. -/
def jwtVerify (secret : String) (now : Nat) (tok : SignedToken) : VerifyResult :=
  if tok.signedWith != secret then .badSignature
  else if tok.exp < now then .expired
  else .ok tok.payload

def recordTypeToString : UserRecordType → String
  | .PARENT => "PARENT"
  | .PATIENT => "PATIENT"

/-- The object the auth controller passes to generateToken:
`{ id, email, recordType, sessionId, expiresAt }`. -/
def registerTokenInput (id email : String) (recordType : UserRecordType)
    (sessionId : String) (expiresAt : Nat) : JsonVal :=
  .obj (JsonFields.ofList
    [("id", .str id), ("email", .str email),
     ("recordType", .str (recordTypeToString recordType)),
     ("sessionId", .str sessionId), ("expiresAt", .num (expiresAt : Int))])

/-- Request body of POST /auth/register after JSON parsing; optional fields
are absent (`none`) or supplied. -/
structure RegisterInput where
  email : String
  password : String
  recordType : UserRecordType
  firstName : String
  lastName : String
  parentEmail : Option String := none
  serialNumber : Option String := none
  deviceName : Option String := none
  latitude : Option Rat := none
  longitude : Option Rat := none
deriving DecidableEq

/-- JS truthiness of an optional string (`undefined` and "" are falsy). -/
def strTruthy (o : Option String) : Bool := o.getD "" != ""

/-- Field-level issues raised by the base object schema of
registerUserSchema (email format, password ≥ 6, names ≥ 2, parentEmail
format when present); the recordType enum is well-typed by construction. -/
def registerBaseIssues (inp : RegisterInput) : List String :=
  (if emailOk inp.email then [] else ["email"]) ++
  (if inp.password.length < 6 then ["password"] else []) ++
  (if inp.firstName.length < 2 then ["firstName"] else []) ++
  (if inp.lastName.length < 2 then ["lastName"] else []) ++
  (match inp.parentEmail with
   | some pe => if emailOk pe then [] else ["parentEmail"]
   | none => [])

/-- Issues added by registerUserSchema.superRefine, in source order.  In the
PARENT branch the source adds a "parentEmail" issue unconditionally
(auth.controller.ts lines 89 to 94), after the guarded one. -/
def registerRefineIssues (inp : RegisterInput) : List String :=
  match inp.recordType with
  | .PATIENT =>
    (if strTruthy inp.parentEmail then [] else ["parentEmail"]) ++
    (if strTruthy inp.serialNumber then [] else ["serialNumber"]) ++
    (if inp.latitude.isNone then ["latitude"] else []) ++
    (if inp.longitude.isNone then ["longitude"] else [])
  | .PARENT =>
    (if strTruthy inp.parentEmail then ["parentEmail"] else []) ++
    (if strTruthy inp.serialNumber then ["serialNumber"] else []) ++
    (if strTruthy inp.deviceName then ["deviceName"] else []) ++
    ["parentEmail"] ++
    (if inp.latitude.isSome then ["latitude"] else []) ++
    (if inp.longitude.isSome then ["longitude"] else [])

/-- registerUserSchema.safeParse: `none` on success, `some issues` on
failure (refinements only run when the base schema passes, as in zod). -/
def registerValidate (inp : RegisterInput) : Option (List String) :=
  match registerBaseIssues inp with
  | [] =>
    match registerRefineIssues inp with
    | [] => none
    | issues => some issues
  | issues => some issues

/-- The ids the store would generate for the rows created by one
registration request. -/
structure Fresh where
  userId : String
  deviceId : String
  geoId : String
  sessionId : String

/-- Public projection returned by the user.create select clause. -/
structure PublicUser where
  id : String
  email : String
  recordType : UserRecordType
  createdAt : Nat
deriving DecidableEq

inductive RegisterResponse where
  | validationFailed (issues : List String)
  | emailExists
  | parentEmailMissing
  | parentNotFound
  | parentWrongRole
  | internalError
  | created (user : PublicUser) (sessionId : String) (sessionExpiresAt : Nat)
      (setCookie : SignedToken)
deriving DecidableEq

/-- HTTP status of each register outcome. -/
def registerStatus : RegisterResponse → Nat
  | .validationFailed _ => 400
  | .emailExists => 409
  | .parentEmailMissing => 400
  | .parentNotFound => 404
  | .parentWrongRole => 400
  | .internalError => 500
  | .created _ _ _ _ => 201

/-- The database trigger validate_parent_patient_role: both ids must
resolve and carry the (PARENT, PATIENT) roles. -/
def relTriggerOk (db : Db) (parentId patientId : String) : Bool :=
  match findUserById db parentId, findUserById db patientId with
  | some p, some q => p.recordType == .PARENT && q.recordType == .PATIENT
  | _, _ => false

/-- `sessionDurationMs` as computed inside the register transaction:
24h, multiplied by 7 unless the new user is a PARENT. -/
def sessionDurationMs (recordType : UserRecordType) : Nat :=
  24 * 60 * 60 * 1000 * (if recordType == UserRecordType.PARENT then 1 else 7)

/-- The User row tx.user.create inserts. -/
def txNewUser (now : Nat) (fresh : Fresh) (inp : RegisterInput)
    (hashedPassword : String) : User :=
  { id := fresh.userId, email := inp.email, password := hashedPassword,
    firstName := inp.firstName, lastName := inp.lastName,
    recordType := inp.recordType, phoneNumber := none, createdAt := now }

/-- The UserSession row tx.userSession.create inserts (expiry from
sessionDurationMs of the new user's role). -/
def txNewSession (now : Nat) (fresh : Fresh) (inp : RegisterInput) : UserSession :=
  { id := fresh.sessionId, userId := fresh.userId,
    expiresAt := now + sessionDurationMs inp.recordType, createdAt := now }

/-- The Device row tx.device.create inserts for a PATIENT. -/
def txNewDevice (now : Nat) (fresh : Fresh) (inp : RegisterInput) : Device :=
  { id := fresh.deviceId, name := inp.deviceName,
    serialNumber := inp.serialNumber.getD "", patientId := fresh.userId,
    createdAt := now }

/-- The Geolocation row tx.geolocation.create inserts for a PATIENT. -/
def txNewGeo (now : Nat) (fresh : Fresh) (inp : RegisterInput) : Geolocation :=
  { id := fresh.geoId, latitude := inp.latitude.getD 0,
    longitude := inp.longitude.getD 0, timestamp := now,
    deviceId := fresh.deviceId }

/-- Store state inside the transaction of a PATIENT registration right
before the relationship insert (User, Device and Geolocation created). -/
def txDb3 (db : Db) (now : Nat) (fresh : Fresh) (inp : RegisterInput)
    (hashedPassword : String) : Db :=
  { db with users := txNewUser now fresh inp hashedPassword :: db.users,
            devices := txNewDevice now fresh inp :: db.devices,
            geolocations := txNewGeo now fresh inp :: db.geolocations }

/-- Body of the prisma.$transaction in register: create the User; for a
PATIENT also the Device, the initial Geolocation and the
ParentPatientRelationship; finally exactly one UserSession.  An `error`
outcome models a throw inside the transaction (rolled back by Prisma),
including the internal consistency throw and the store-level unique and
trigger constraints. -/
def registerTx (db : Db) (now : Nat) (fresh : Fresh) (inp : RegisterInput)
    (parentUser : Option User) (hashedPassword : String) : Except String Db :=
  if (findUserByEmail db inp.email).isSome then
    .error "unique constraint violation on User.email"
  else if inp.recordType = UserRecordType.PATIENT then
    if !strTruthy inp.serialNumber || inp.latitude.isNone || inp.longitude.isNone then
      .error "Internal Server Error: Missing required patient device or location data after validation."
    else
      match parentUser with
      | some parent =>
        if relTriggerOk (txDb3 db now fresh inp hashedPassword) parent.id fresh.userId
            && !pairExists (txDb3 db now fresh inp hashedPassword) parent.id fresh.userId then
          .ok { txDb3 db now fresh inp hashedPassword with
                relationships :=
                  { parentId := parent.id, patientId := fresh.userId,
                    assignedAt := now } :: db.relationships,
                sessions := txNewSession now fresh inp :: db.sessions }
        else .error "trigger or unique violation on ParentPatientRelationship"
      | none =>
        .ok { txDb3 db now fresh inp hashedPassword with
              sessions := txNewSession now fresh inp :: db.sessions }
  else
    .ok { db with users := txNewUser now fresh inp hashedPassword :: db.users,
                  sessions := txNewSession now fresh inp :: db.sessions }

/-- Runs the transaction and maps its outcome to the HTTP response: any
throw is caught as a 500 with the store unchanged; on success the token is
issued over the new user and session. -/
def registerRunTx (db : Db) (now : Nat) (fresh : Fresh) (secret : String)
    (inp : RegisterInput) (parentUser : Option User) : RegisterResponse × Db :=
  match registerTx db now fresh inp parentUser (bcryptHash inp.password) with
  | .error _ => (.internalError, db)
  | .ok dbn =>
    let expiresAt := now + sessionDurationMs inp.recordType
    let pub : PublicUser :=
      { id := fresh.userId, email := inp.email, recordType := inp.recordType,
        createdAt := now }
    (.created pub fresh.sessionId expiresAt
       (generateToken now secret
         (registerTokenInput fresh.userId inp.email inp.recordType
           fresh.sessionId expiresAt)), dbn)

/-- The register handler (POST /auth/register): validation, duplicate-email
check, parent resolution for PATIENT, then the transaction. -/
def register (db : Db) (now : Nat) (fresh : Fresh) (secret : String)
    (inp : RegisterInput) : RegisterResponse × Db :=
  match registerValidate inp with
  | some issues => (.validationFailed issues, db)
  | none =>
    if (findUserByEmail db inp.email).isSome then (.emailExists, db)
    else
      match inp.recordType with
      | .PATIENT =>
        if !strTruthy inp.parentEmail then (.parentEmailMissing, db)
        else
          match findUserByEmail db (inp.parentEmail.getD "") with
          | none => (.parentNotFound, db)
          | some parentUser =>
            if parentUser.recordType != UserRecordType.PARENT then
              (.parentWrongRole, db)
            else registerRunTx db now fresh secret inp (some parentUser)
      | .PARENT => registerRunTx db now fresh secret inp none

inductive LoginResponse where
  | validationFailed (issues : List String)
  | invalidCredentials
  | ok (userId : String) (setCookie : SignedToken)
deriving DecidableEq

/-- loginUserSchema: email format plus nonempty password. -/
def loginValidate (email password : String) : List String :=
  (if emailOk email then [] else ["email"]) ++
  (if password.length < 1 then ["password"] else [])

/-- The login handler (POST /auth/login): generic failure on unknown email
or wrong password, otherwise a fresh 24h session and a new token. -/
def login (db : Db) (now : Nat) (freshSessionId : String) (secret : String)
    (email password : String) : LoginResponse × Db :=
  match loginValidate email password with
  | [] =>
    match findUserByEmail db email with
    | none => (.invalidCredentials, db)
    | some user =>
      if !bcryptCompare password user.password then (.invalidCredentials, db)
      else
        let expiresAt := now + 24 * 60 * 60 * 1000
        let newSession : UserSession :=
          { id := freshSessionId, userId := user.id, expiresAt := expiresAt,
            createdAt := now }
        (.ok user.id
           (generateToken now secret
             (registerTokenInput user.id user.email user.recordType
               freshSessionId expiresAt)),
         { db with sessions := newSession :: db.sessions })
  | issues => (.validationFailed issues, db)

/-- The identity the middleware attaches to req.user; email and recordType
are copied raw from the decoded payload (undefined when absent). -/
structure AttachedUser where
  id : String
  email : Option JsonVal
  recordType : Option JsonVal
  sessionId : String
deriving DecidableEq

/-- Observable outcome of the isLogged middleware: the status it responds
with (`none` when it calls next()), whether it cleared the authToken
cookie, whether the protected handler is reached, and what it attached. -/
structure MwResult where
  status : Option Nat
  clearedCookie : Bool
  nextCalled : Bool
  user : Option AttachedUser
deriving DecidableEq

/-- The isLogged middleware (auth.middleware.ts): cookie extraction, jwt
verification, session liveness in the UserSession table, user existence,
then attach and next().  A payload without a string sessionId or id makes
prisma findUnique throw, which the generic catch turns into a plain 401
without clearing the cookie. -/
def isLogged (db : Db) (now : Nat) (secret : Option String)
    (cookieAuthToken : Option SignedToken) : MwResult :=
  match cookieAuthToken with
  | none => { status := some 401, clearedCookie := false, nextCalled := false, user := none }
  | some tok =>
    match secret with
    | none => { status := some 500, clearedCookie := false, nextCalled := false, user := none }
    | some s =>
      match jwtVerify s now tok with
      | .badSignature =>
        { status := some 401, clearedCookie := true, nextCalled := false, user := none }
      | .expired =>
        { status := some 401, clearedCookie := true, nextCalled := false, user := none }
      | .ok payload =>
        match jsonGetStr payload "sessionId" with
        | none =>
          { status := some 401, clearedCookie := false, nextCalled := false, user := none }
        | some sid =>
          match findSessionById db sid with
          | none =>
            { status := some 401, clearedCookie := true, nextCalled := false, user := none }
          | some session =>
            if session.expiresAt < now then
              { status := some 401, clearedCookie := true, nextCalled := false, user := none }
            else
              match jsonGetStr payload "id" with
              | none =>
                { status := some 401, clearedCookie := false, nextCalled := false, user := none }
              | some uid =>
                match findUserById db uid with
                | none =>
                  { status := some 401, clearedCookie := true, nextCalled := false, user := none }
                | some _ =>
                  { status := none, clearedCookie := false, nextCalled := true,
                    user := some { id := uid, email := jsonGet payload "email",
                                   recordType := jsonGet payload "recordType",
                                   sessionId := sid } }

/-- Outcome of the socket.io handshake: connection kept or dropped, and the
decoded payload stored on socket.data.user. -/
structure HandshakeResult where
  connected : Bool
  userData : Option JsonVal
deriving DecidableEq

/-- The realtime handshake (auth.middleware.ts websocket part): token from
handshake auth data, secret presence, jwt.verify — and nothing else; no
store access of any kind. -/
def handshake (secret : Option String) (now : Nat)
    (authToken : Option SignedToken) : HandshakeResult :=
  match authToken with
  | none => { connected := false, userData := none }
  | some tok =>
    match secret with
    | none => { connected := false, userData := none }
    | some s =>
      match jwtVerify s now tok with
      | .ok payload => { connected := true, userData := some payload }
      | .badSignature => { connected := false, userData := none }
      | .expired => { connected := false, userData := none }

inductive RelCreateResponse where
  | invalidBody
  | sameId
  | parentNotFound
  | patientNotFound
  | parentWrongRole
  | patientWrongRole
  | conflict
  | created (rel : ParentPatientRelationship)
deriving DecidableEq

/-- HTTP status of each createRelationship outcome (the duplicate pair is
surfaced as 409 via the P2002 handler, not as 500). -/
def relCreateStatus : RelCreateResponse → Nat
  | .invalidBody => 400
  | .sameId => 400
  | .parentNotFound => 404
  | .patientNotFound => 404
  | .parentWrongRole => 400
  | .patientWrongRole => 400
  | .conflict => 409
  | .created _ => 201

/-- POST /r (parent-patient.controller.ts createRelationship): zod uuid
check, same-id check, two user lookups, two role checks, then the insert
with its unique-pair constraint mapped to a conflict. -/
def createRelationship (db : Db) (now : Nat) (parentId patientId : String)
    (cookieAuthToken : Option SignedToken) : RelCreateResponse × Db :=
  if !(isUuidFormat parentId && isUuidFormat patientId) then (.invalidBody, db)
  else if parentId == patientId then (.sameId, db)
  else
    match findUserById db parentId with
    | none => (.parentNotFound, db)
    | some parentUser =>
      match findUserById db patientId with
      | none => (.patientNotFound, db)
      | some patientUser =>
        if parentUser.recordType != UserRecordType.PARENT then (.parentWrongRole, db)
        else if patientUser.recordType != UserRecordType.PATIENT then (.patientWrongRole, db)
        else if pairExists db parentId patientId then (.conflict, db)
        else
          let rel : ParentPatientRelationship :=
            { parentId := parentId, patientId := patientId, assignedAt := now }
          (.created rel, { db with relationships := rel :: db.relationships })

/-- Patient-side projection returned by GET /r/parent/:parentId/patients. -/
structure PatientProjection where
  id : String
  firstName : String
  lastName : String
  email : String
deriving DecidableEq

/-- Parent-side projection (includes phoneNumber) returned by
GET /r/patient/:patientId/parents. -/
structure ParentProjection where
  id : String
  firstName : String
  lastName : String
  email : String
  phoneNumber : Option String
deriving DecidableEq

inductive RelListResponse (α : Type) where
  | invalidParam
  | notFound
  | ok (items : List α)
deriving DecidableEq

/-- GET /r/parent/:parentId/patients.  The include resolves each linked
patient row; referential integrity keeps the lookup total, a dummy row
stands in for the unreachable missing case. -/
def getRelationshipsByParentId (db : Db) (parentId : String)
    (cookieAuthToken : Option SignedToken) : RelListResponse PatientProjection :=
  if !isUuidFormat parentId then .invalidParam
  else
    match findUserById db parentId with
    | none => .notFound
    | some _ =>
      .ok ((db.relationships.filter (fun r => r.parentId == parentId)).map
        (fun r =>
          match findUserById db r.patientId with
          | some u => { id := u.id, firstName := u.firstName,
                        lastName := u.lastName, email := u.email }
          | none => { id := r.patientId, firstName := "", lastName := "", email := "" }))

/-- GET /r/patient/:patientId/parents, symmetric, with phoneNumber. -/
def getRelationshipsByPatientId (db : Db) (patientId : String)
    (cookieAuthToken : Option SignedToken) : RelListResponse ParentProjection :=
  if !isUuidFormat patientId then .invalidParam
  else
    match findUserById db patientId with
    | none => .notFound
    | some _ =>
      .ok ((db.relationships.filter (fun r => r.patientId == patientId)).map
        (fun r =>
          match findUserById db r.parentId with
          | some u => { id := u.id, firstName := u.firstName,
                        lastName := u.lastName, email := u.email,
                        phoneNumber := u.phoneNumber }
          | none => { id := r.parentId, firstName := "", lastName := "",
                      email := "", phoneNumber := none }))

inductive RelGetResponse where
  | invalidParam
  | notFound
  | ok (rel : ParentPatientRelationship)
deriving DecidableEq

/-- GET /r/:parentId/:patientId, keyed by the composite primary key. -/
def getRelationship (db : Db) (parentId patientId : String)
    (cookieAuthToken : Option SignedToken) : RelGetResponse :=
  if !(isUuidFormat parentId && isUuidFormat patientId) then .invalidParam
  else
    match db.relationships.find?
        (fun r => r.parentId == parentId && r.patientId == patientId) with
    | none => .notFound
    | some rel => .ok rel

inductive RelDeleteResponse where
  | invalidParam
  | notFound
  | noContent
deriving DecidableEq

/-- DELETE /r/:parentId/:patientId: a missing pair surfaces as P2025,
mapped to 404 rather than 500. -/
def deleteRelationship (db : Db) (parentId patientId : String)
    (cookieAuthToken : Option SignedToken) : RelDeleteResponse × Db :=
  if !(isUuidFormat parentId && isUuidFormat patientId) then (.invalidParam, db)
  else if pairExists db parentId patientId then
    let keep := fun (r : ParentPatientRelationship) =>
      !(r.parentId == parentId && r.patientId == patientId)
    (.noContent, { db with relationships := db.relationships.filter keep })
  else (.notFound, db)

inductive GeoCreateResponse where
  | validationFailed
  | deviceNotFound
  | created (g : Geolocation)
deriving DecidableEq

/-- HTTP status of each geolocation ingest outcome. -/
def geoCreateStatus : GeoCreateResponse → Nat
  | .validationFailed => 400
  | .deviceNotFound => 404
  | .created _ => 201

/-- POST /location (geolocation.controller.ts createGeolocation): zod
bounds on latitude/longitude and nonempty serialNumber, then findFirst by
serial ordered by createdAt desc, then the insert with the server-assigned
timestamp. -/
def createGeolocation (db : Db) (now : Nat) (freshId : String)
    (latitude longitude : Rat) (serialNumber : String)
    (cookieAuthToken : Option SignedToken) : GeoCreateResponse × Db :=
  if latitude < -90 ∨ 90 < latitude ∨ longitude < -180 ∨ 180 < longitude ∨
      serialNumber.length < 1 then
    (.validationFailed, db)
  else
    match findLatestDeviceBySerial db serialNumber with
    | none => (.deviceNotFound, db)
    | some device =>
      let g : Geolocation :=
        { id := freshId, latitude := latitude, longitude := longitude,
          timestamp := now, deviceId := device.id }
      (.created g, { db with geolocations := g :: db.geolocations })

inductive LatestResponse where
  | invalidParam
  | patientNotFound (patientId : String)
  | deviceNotFound
  | noGeolocation (serialNumber : String)
  | ok (g : Geolocation)
deriving DecidableEq

/-- HTTP status of each latest-location outcome. -/
def latestStatus : LatestResponse → Nat
  | .invalidParam => 400
  | .patientNotFound _ => 404
  | .deviceNotFound => 404
  | .noGeolocation _ => 404
  | .ok _ => 200

/-- Body message of each failing latest-location outcome (quote characters
of the source text elided). -/
def latestMessage : LatestResponse → Option String
  | .invalidParam => some "Invalid serial number parameter"
  | .patientNotFound pid => some ("Patient with ID " ++ pid ++ " not found.")
  | .deviceNotFound => some "Device not found."
  | .noGeolocation sn => some ("No geolocation data found for device " ++ sn ++ ".")
  | .ok _ => none

/-- GET /location/latest/:patientId (getLatestGeolocationByDevice): uuid
check, PATIENT-role user lookup, most-recently-created device of the
patient, most recent geolocation of that device. -/
def getLatestGeolocationByDevice (db : Db) (patientId : String)
    (cookieAuthToken : Option SignedToken) : LatestResponse :=
  if !isUuidFormat patientId then .invalidParam
  else
    match db.users.find?
        (fun u => u.id == patientId && u.recordType == UserRecordType.PATIENT) with
    | none => .patientNotFound patientId
    | some _ =>
      match findLatestDeviceOfPatient db patientId with
      | none => .deviceNotFound
      | some device =>
        match findLatestGeoOfDevice db device.id with
        | none => .noGeolocation device.serialNumber
        | some g => .ok g

/-- One mounted HTTP route and whether the isLogged middleware guards it. -/
structure RouteEntry where
  method : String
  path : String
  usesIsLogged : Bool
deriving DecidableEq

/-- patient-parent.routes.ts mounted at /r by the app entry point: no route
carries the isLogged middleware. -/
def patientParentRoutes : List RouteEntry :=
  [ { method := "POST", path := "/r/", usesIsLogged := false },
    { method := "GET", path := "/r/parent/:parentId/patients", usesIsLogged := false },
    { method := "GET", path := "/r/patient/:patientId/parents", usesIsLogged := false },
    { method := "GET", path := "/r/:parentId/:patientId", usesIsLogged := false },
    { method := "DELETE", path := "/r/:parentId/:patientId", usesIsLogged := false } ]

/-- geolocation.routes.ts mounted at /location: the isLogged middleware is
commented out in the source on both routes. -/
def geolocationRoutes : List RouteEntry :=
  [ { method := "POST", path := "/location/", usesIsLogged := false },
    { method := "GET", path := "/location/latest/:patientId", usesIsLogged := false } ]

/-- preferences.routes.ts mounted at /user/preferences: both routes are
session-gated. -/
def preferencesRoutes : List RouteEntry :=
  [ { method := "PATCH", path := "/user/preferences/", usesIsLogged := true },
    { method := "GET", path := "/user/preferences/", usesIsLogged := true } ]

/-! ### Concrete fixtures used by the theorems below -/

def emptyDb : Db := {}

/-- A PARENT registration request supplying only the base fields. -/
def parentBaseInput : RegisterInput :=
  { email := "parent@x.com", password := "secret1", recordType := .PARENT,
    firstName := "Ana", lastName := "Souza" }

/-- A pre-existing PARENT row. -/
def parentUser0 : User :=
  { id := "11111111-1111-1111-1111-111111111111", email := "parent@x.com",
    password := bcryptHash "secret1", firstName := "Ana", lastName := "Souza",
    recordType := .PARENT }

/-- A pre-existing PATIENT row. -/
def patientUser0 : User :=
  { id := "22222222-2222-2222-2222-222222222222", email := "patient@x.com",
    password := bcryptHash "secret2", firstName := "Bob", lastName := "Lima",
    recordType := .PATIENT }

def db0 : Db := { users := [parentUser0] }

/-- A valid PATIENT registration request referencing parentUser0. -/
def patientInput0 : RegisterInput :=
  { email := "patient@x.com", password := "secret1", recordType := .PATIENT,
    firstName := "Bob", lastName := "Lima", parentEmail := some "parent@x.com",
    serialNumber := some "SN1", latitude := some 10, longitude := some 20 }

def fresh0 : Fresh :=
  { userId := "22222222-2222-2222-2222-222222222222", deviceId := "d1",
    geoId := "g1", sessionId := "s1" }

/-! ### C1 -/

/-- C1: the claim says a PARENT registration carrying only the base fields
passes validation and returns 201.  It does not: the PARENT branch of the
superRefine adds a "parentEmail" issue unconditionally, so this request —
well-formed email, 7-character password, names, no patient-only field —
fails validation with 400 and writes nothing, for every store state. -/
theorem c1_parent_base_registration_rejected :
    registerValidate parentBaseInput = some ["parentEmail"] ∧
    (∀ db now fresh secret,
      register db now fresh secret parentBaseInput =
        (.validationFailed ["parentEmail"], db)) ∧
    registerStatus (.validationFailed ["parentEmail"]) = 400 := by
  have hval : registerValidate parentBaseInput = some ["parentEmail"] := by decide
  refine ⟨hval, ?_, rfl⟩
  intro db now fresh secret
  simp [register, hval]

/-! ### C2 -/

/-- The object the register controller passes to generateToken for the
session issued to parentUser0. -/
def c2TokenInput : JsonVal :=
  registerTokenInput "11111111-1111-1111-1111-111111111111" "parent@x.com"
    .PARENT "s1" 86400000

def c2Token : SignedToken := generateToken 0 "topsecret" c2TokenInput

/-- A store in which the session s1 is live and parentUser0 exists, i.e.
every server-side check of the middleware could succeed. -/
def c2Db : Db :=
  { users := [parentUser0],
    sessions := [{ id := "s1", userId := "11111111-1111-1111-1111-111111111111",
                   expiresAt := 86400000 }] }

/-- C2: the claim says the issued token embeds {userId, email, role,
sessionId, expiresAt} as its payload and that the middleware accepts it
and attaches the same identity.  It does not: generateToken signs
`{ email: payload }`, nesting everything under the single key "email", so
no issued token has a top-level sessionId (third conjunct: for every
payload), and presenting the token while its session row is live and its
user exists still ends in a 401 with the handler unreached. -/
theorem c2_token_roundtrip_broken :
    jsonGetStr c2TokenInput "sessionId" = some "s1" ∧
    jsonGetStr c2Token.payload "sessionId" = none ∧
    (∀ (p : JsonVal) (now : Nat) (secret : String),
      jsonGet (generateToken now secret p).payload "sessionId" = none) ∧
    isLogged c2Db 1000 (some "topsecret") (some c2Token) =
      { status := some 401, clearedCookie := false, nextCalled := false,
        user := none } := by
  refine ⟨by decide, by decide, ?_, by decide⟩
  intro p now secret
  rfl

/-! ### C3 -/

/-- Everything one successful registration must persist together: the new
User row, exactly one new UserSession, and for a PATIENT the Device, the
initial Geolocation and a ParentPatientRelationship to the resolved
parent. -/
def registerWrites (db dbn : Db) (now : Nat) (fresh : Fresh)
    (inp : RegisterInput) : Prop :=
  txNewUser now fresh inp (bcryptHash inp.password) ∈ dbn.users ∧
  txNewSession now fresh inp ∈ dbn.sessions ∧
  dbn.sessions.length = db.sessions.length + 1 ∧
  (inp.recordType = UserRecordType.PATIENT →
    txNewDevice now fresh inp ∈ dbn.devices ∧
    txNewGeo now fresh inp ∈ dbn.geolocations ∧
    (∃ r ∈ dbn.relationships, r.patientId = fresh.userId ∧ r.assignedAt = now))

theorem registerTx_ok_writes {db dbn : Db} {now : Nat} {fresh : Fresh}
    {inp : RegisterInput} {parentUser : Option User}
    (hpu : inp.recordType = UserRecordType.PATIENT → parentUser.isSome = true)
    (h : registerTx db now fresh inp parentUser (bcryptHash inp.password) = .ok dbn) :
    registerWrites db dbn now fresh inp := by
  unfold registerTx at h
  split at h
  · simp at h
  · by_cases hpat : inp.recordType = UserRecordType.PATIENT
    · rw [if_pos hpat] at h
      split at h
      · simp at h
      · split at h
        · rename_i parent
          split at h
          · simp only [Except.ok.injEq] at h
            subst h
            refine ⟨by simp [txDb3], by simp, by simp, fun _ => ?_⟩
            refine ⟨by simp [txDb3], by simp [txDb3], ?_⟩
            exact ⟨{ parentId := parent.id, patientId := fresh.userId,
                     assignedAt := now }, by simp, rfl, rfl⟩
          · simp at h
        · have hps := hpu hpat
          simp at hps
    · rw [if_neg hpat] at h
      simp only [Except.ok.injEq] at h
      subst h
      exact ⟨by simp, by simp, by simp, fun hc => absurd hc hpat⟩

/-- C3: registration is atomic — for every store state and request, either
the response is 201 created and the final store holds all of the writes of
this registration together (User, one new UserSession, and for a PATIENT
the Device, Geolocation and ParentPatientRelationship), or the store is
exactly the one from before the request, so no partial state is ever
observable. -/
theorem c3_register_atomic (db : Db) (now : Nat) (fresh : Fresh)
    (secret : String) (inp : RegisterInput) :
    (register db now fresh secret inp).2 = db ∨
    (∃ pub sid e tok,
      (register db now fresh secret inp).1 = .created pub sid e tok ∧
      registerWrites db (register db now fresh secret inp).2 now fresh inp) := by
  unfold register
  split
  · left; rfl
  · split
    · left; rfl
    · split
      · split
        · left; rfl
        · split
          · left; rfl
          · split
            · left; rfl
            · rename_i hpat hpe pu hpu hrole
              unfold registerRunTx
              cases htx : registerTx db now fresh inp (some pu) (bcryptHash inp.password) with
              | error e => simp [htx]
              | ok dbn =>
                right
                refine ⟨{ id := fresh.userId, email := inp.email,
                          recordType := inp.recordType, createdAt := now },
                        fresh.sessionId, now + sessionDurationMs inp.recordType,
                        generateToken now secret
                          (registerTokenInput fresh.userId inp.email
                            inp.recordType fresh.sessionId
                            (now + sessionDurationMs inp.recordType)),
                        ?_, ?_⟩
                · simp [htx]
                · simp only [htx]
                  exact @registerTx_ok_writes db dbn now fresh inp (some pu)
                    (fun _ => rfl) htx
      · rename_i hpar
        unfold registerRunTx
        cases htx : registerTx db now fresh inp none (bcryptHash inp.password) with
        | error e => simp [htx]
        | ok dbn =>
          right
          refine ⟨{ id := fresh.userId, email := inp.email,
                    recordType := inp.recordType, createdAt := now },
                  fresh.sessionId, now + sessionDurationMs inp.recordType,
                  generateToken now secret
                    (registerTokenInput fresh.userId inp.email
                      inp.recordType fresh.sessionId
                      (now + sessionDurationMs inp.recordType)),
                  ?_, ?_⟩
          · simp [htx]
          · simp only [htx]
            exact @registerTx_ok_writes db dbn now fresh inp none
              (fun hc => by rw [hpar] at hc; simp at hc) htx

/-! ### C4 -/

/-- C4: every relationship route and every geolocation route is mounted
without the isLogged middleware, and each of the seven handlers returns the
same response whatever authToken cookie (absent or any token whatsoever)
accompanies the request — an unauthenticated caller can create or delete
relationships and read locations. -/
theorem c4_open_routes_cookie_independent :
    ((patientParentRoutes ++ geolocationRoutes).all
      (fun r => r.usesIsLogged == false)) = true ∧
    (∀ db now pid qid c c',
      createRelationship db now pid qid c = createRelationship db now pid qid c') ∧
    (∀ db pid c c',
      getRelationshipsByParentId db pid c = getRelationshipsByParentId db pid c') ∧
    (∀ db qid c c',
      getRelationshipsByPatientId db qid c = getRelationshipsByPatientId db qid c') ∧
    (∀ db pid qid c c',
      getRelationship db pid qid c = getRelationship db pid qid c') ∧
    (∀ db pid qid c c',
      deleteRelationship db pid qid c = deleteRelationship db pid qid c') ∧
    (∀ db now fid lat lon sn c c',
      createGeolocation db now fid lat lon sn c = createGeolocation db now fid lat lon sn c') ∧
    (∀ db pid c c',
      getLatestGeolocationByDevice db pid c = getLatestGeolocationByDevice db pid c') :=
  ⟨rfl, fun _ _ _ _ _ _ => rfl, fun _ _ _ _ => rfl, fun _ _ _ _ => rfl,
   fun _ _ _ _ _ => rfl, fun _ _ _ _ _ => rfl, fun _ _ _ _ _ _ _ _ => rfl,
   fun _ _ _ _ => rfl⟩

/-! ### C5 -/

/-- C5: server-side revocation — for every request whose token carries a
valid signature, an unelapsed cryptographic expiry and an embedded
sessionId, if the session row is missing from the UserSession table or its
stored expiry is in the past, the middleware responds 401, clears the
cookie, and never calls the protected handler. -/
theorem c5_session_revocation (db : Db) (now : Nat) (secret : String)
    (tok : SignedToken) (sid : String)
    (hsig : tok.signedWith = secret) (hexp : now ≤ tok.exp)
    (hsid : jsonGetStr tok.payload "sessionId" = some sid)
    (hdead : findSessionById db sid = none ∨
      ∃ s, findSessionById db sid = some s ∧ s.expiresAt < now) :
    isLogged db now (some secret) (some tok) =
      { status := some 401, clearedCookie := true, nextCalled := false,
        user := none } := by
  have hver : jwtVerify secret now tok = .ok tok.payload := by
    have h2 : ¬ (tok.exp < now) := not_lt.mpr hexp
    simp [jwtVerify, hsig, h2]
  rcases hdead with hnone | ⟨s, hs, hlt⟩
  · simp [isLogged, hver, hsid, hnone]
  · simp [isLogged, hver, hsid, hs, hlt]

/-- A token with a valid signature and a live cryptographic expiry whose
embedded session row does not exist. -/
def c5Tok : SignedToken :=
  { payload := .obj (.cons "sessionId" (.str "gone") .nil), exp := 5000,
    signedWith := "sec" }

/-- C5 witness: the hypotheses of c5_session_revocation hold at c5Tok over
the empty store, and the middleware rejects it accordingly. -/
theorem c5_session_revocation_witness :
    c5Tok.signedWith = "sec" ∧ (100 : Nat) ≤ c5Tok.exp ∧
    jsonGetStr c5Tok.payload "sessionId" = some "gone" ∧
    findSessionById emptyDb "gone" = none ∧
    isLogged emptyDb 100 (some "sec") (some c5Tok) =
      { status := some 401, clearedCookie := true, nextCalled := false,
        user := none } :=
  ⟨rfl, by decide, by decide, rfl,
   c5_session_revocation emptyDb 100 "sec" c5Tok "gone" rfl (by decide)
     (by decide) (Or.inl rfl)⟩

/-! ### C6 -/

/-- A token with a valid signature whose embedded session row does not
exist in the store. -/
def c6Tok : SignedToken :=
  { payload := .obj (.cons "sessionId" (.str "gone") .nil), exp := 5000,
    signedWith := "sec" }

/-- C6 counterexample: the handshake does not verify a token the same way
the HTTP middleware does.  For this token — valid signature, but its
session row absent from the store — the realtime handshake accepts the
connection while the HTTP middleware rejects the very same token with 401
and never reaches the handler. -/
theorem c6_handshake_not_equiv_http :
    (handshake (some "sec") 100 (some c6Tok)).connected = true ∧
    (isLogged emptyDb 100 (some "sec") (some c6Tok)).nextCalled = false ∧
    (isLogged emptyDb 100 (some "sec") (some c6Tok)).status = some 401 := by
  decide

/-- C6 amended: the handshake checks only that a token and the secret are
present and that jwt.verify succeeds (signature and cryptographic expiry);
it consults neither the Session Registry nor the user table, so — unlike
the HTTP middleware — its acceptance is independent of the store state. -/
theorem c6_handshake_signature_only (secret : Option String) (now : Nat)
    (tok? : Option SignedToken) :
    (handshake secret now tok?).connected = true ↔
      (∃ s t, secret = some s ∧ tok? = some t ∧ t.signedWith = s ∧
        ¬ (t.exp < now)) := by
  cases tok? with
  | none => simp [handshake]
  | some t =>
    cases secret with
    | none => simp [handshake]
    | some s =>
      by_cases h1 : t.signedWith = s
      · by_cases h2 : t.exp < now
        · simp [handshake, jwtVerify, h1, h2]
        · simp [handshake, jwtVerify, h1, h2]
          exact le_of_not_lt h2
      · simp [handshake, jwtVerify, h1]

/-! ### C7 -/

theorem register_created_inv {db : Db} {now : Nat} {fresh : Fresh}
    {secret : String} {inp : RegisterInput} {pub : PublicUser} {sid : String}
    {e : Nat} {tok : SignedToken}
    (h : (register db now fresh secret inp).1 = .created pub sid e tok) :
    sid = fresh.sessionId ∧ e = now + sessionDurationMs inp.recordType ∧
    pub.recordType = inp.recordType ∧
    txNewSession now fresh inp ∈ (register db now fresh secret inp).2.sessions ∧
    (register db now fresh secret inp).2.sessions.length = db.sessions.length + 1 := by
  unfold register at h ⊢
  split at h
  · simp at h
  · split at h
    · simp at h
    · split at h
      · split at h
        · simp at h
        · split at h
          · simp at h
          · split at h
            · simp at h
            · rename_i hx2 hval hemail hx1 hpat hpe hx0 pu hfind hrole
              unfold registerRunTx at h ⊢
              cases htx : registerTx db now fresh inp (some pu) (bcryptHash inp.password) with
              | error er => rw [htx] at h; simp at h
              | ok dbn =>
                rw [htx] at h
                simp only [RegisterResponse.created.injEq] at h
                obtain ⟨hpub, hsid, he, htok⟩ := h
                have w := @registerTx_ok_writes db dbn now fresh inp (some pu)
                  (fun _ => rfl) htx
                rw [if_neg hemail, if_neg hpe, if_neg hrole]
                exact ⟨hsid.symm, he.symm, by rw [← hpub], w.2.1, w.2.2.1⟩
      · unfold registerRunTx at h ⊢
        rename_i hx1 hval hemail hx0 hpar
        cases htx : registerTx db now fresh inp none (bcryptHash inp.password) with
        | error er => rw [htx] at h; simp at h
        | ok dbn =>
          rw [htx] at h
          simp only [RegisterResponse.created.injEq] at h
          obtain ⟨hpub, hsid, he, htok⟩ := h
          have w := @registerTx_ok_writes db dbn now fresh inp none
            (fun hc => by rw [hpar] at hc; simp at hc) htx
          rw [if_neg hemail]
          exact ⟨hsid.symm, he.symm, by rw [← hpub], w.2.1, w.2.2.1⟩

theorem login_ok_inv {db : Db} {now : Nat} {sid secret email pw uid : String}
    {tok : SignedToken}
    (h : (login db now sid secret email pw).1 = .ok uid tok) :
    ({ id := sid, userId := uid, expiresAt := now + 24 * 60 * 60 * 1000,
       createdAt := now } : UserSession) ∈ (login db now sid secret email pw).2.sessions ∧
    (login db now sid secret email pw).2.sessions.length = db.sessions.length + 1 := by
  unfold login at h ⊢
  split at h
  · split at h
    · simp at h
    · rename_i user hfind
      split at h
      · simp at h
      · rename_i hcmp
        simp only [LoginResponse.ok.injEq] at h
        obtain ⟨hu, htok⟩ := h
        subst hu
        have hb : bcryptCompare pw user.password = true := by simpa using hcmp
        rw [if_neg (by simp [hb])]
        exact ⟨by simp, by simp⟩
  · simp at h

/-- C7: session expiry durations.  sessionDurationMs is 24h for PARENT and
7 days for PATIENT; every registration that responds 201 created exactly
one new UserSession whose expiry is now plus that duration for the new
user's role; every successful login created exactly one new UserSession
with the flat 24h expiry regardless of role. -/
theorem c7_session_expiry :
    sessionDurationMs UserRecordType.PARENT = 24 * 60 * 60 * 1000 ∧
    sessionDurationMs UserRecordType.PATIENT = 7 * (24 * 60 * 60 * 1000) ∧
    (∀ db now fresh secret inp pub sid e tok,
      (register db now fresh secret inp).1 = .created pub sid e tok →
      sid = fresh.sessionId ∧ e = now + sessionDurationMs inp.recordType ∧
      pub.recordType = inp.recordType ∧
      txNewSession now fresh inp ∈ (register db now fresh secret inp).2.sessions ∧
      (register db now fresh secret inp).2.sessions.length = db.sessions.length + 1) ∧
    (∀ db now sid secret email pw uid tok,
      (login db now sid secret email pw).1 = .ok uid tok →
      ({ id := sid, userId := uid, expiresAt := now + 24 * 60 * 60 * 1000,
         createdAt := now } : UserSession) ∈ (login db now sid secret email pw).2.sessions ∧
      (login db now sid secret email pw).2.sessions.length = db.sessions.length + 1) :=
  ⟨by decide, by decide,
   fun _ _ _ _ _ _ _ _ _ h => register_created_inv h,
   fun _ _ _ _ _ _ _ _ h => login_ok_inv h⟩

def pub0 : PublicUser :=
  { id := "22222222-2222-2222-2222-222222222222", email := "patient@x.com",
    recordType := .PATIENT, createdAt := 0 }

def tok0 : SignedToken :=
  generateToken 0 "sec"
    (registerTokenInput "22222222-2222-2222-2222-222222222222" "patient@x.com"
      .PATIENT "s1" 604800000)

def tokL0 : SignedToken :=
  generateToken 5 "sec"
    (registerTokenInput "11111111-1111-1111-1111-111111111111" "parent@x.com"
      .PARENT "s2" 86400005)

/-- C7 witness: a concrete PATIENT registration really responds created
(7-day session), and a concrete login really responds ok (24h session);
the conclusions of c7_session_expiry hold there. -/
theorem c7_session_expiry_witness :
    ((register db0 0 fresh0 "sec" patientInput0).1 =
      RegisterResponse.created pub0 "s1" 604800000 tok0) ∧
    ("s1" = fresh0.sessionId ∧
     604800000 = 0 + sessionDurationMs patientInput0.recordType ∧
     pub0.recordType = patientInput0.recordType ∧
     txNewSession 0 fresh0 patientInput0 ∈ (register db0 0 fresh0 "sec" patientInput0).2.sessions ∧
     (register db0 0 fresh0 "sec" patientInput0).2.sessions.length = db0.sessions.length + 1) ∧
    ((login db0 5 "s2" "sec" "parent@x.com" "secret1").1 =
      LoginResponse.ok "11111111-1111-1111-1111-111111111111" tokL0) ∧
    (({ id := "s2", userId := "11111111-1111-1111-1111-111111111111",
        expiresAt := 5 + 24 * 60 * 60 * 1000, createdAt := 5 } : UserSession)
        ∈ (login db0 5 "s2" "sec" "parent@x.com" "secret1").2.sessions ∧
     (login db0 5 "s2" "sec" "parent@x.com" "secret1").2.sessions.length =
       db0.sessions.length + 1) := by
  have hreg : (register db0 0 fresh0 "sec" patientInput0).1 =
      RegisterResponse.created pub0 "s1" 604800000 tok0 := by decide
  have hlog : (login db0 5 "s2" "sec" "parent@x.com" "secret1").1 =
      LoginResponse.ok "11111111-1111-1111-1111-111111111111" tokL0 := by decide
  exact ⟨hreg,
    c7_session_expiry.2.2.1 db0 0 fresh0 "sec" patientInput0 pub0 "s1" 604800000 tok0 hreg,
    hlog,
    c7_session_expiry.2.2.2 db0 5 "s2" "sec" "parent@x.com" "secret1"
      "11111111-1111-1111-1111-111111111111" tokL0 hlog⟩

/-! ### C8 -/

/-- C8: relationship creation — for every request with well-formed ids the
handler rejects 400 when parentId = patientId; else 404 when either id does
not resolve to a User; else 400 when the parent row is not PARENT or the
patient row is not PATIENT; else 409 (not 500) when the pair already
exists; otherwise it inserts exactly one relationship row and returns it
with 201. -/
theorem c8_create_relationship_cases (db : Db) (now : Nat)
    (pid qid : String) (c : Option SignedToken)
    (hp : isUuidFormat pid = true) (hq : isUuidFormat qid = true) :
    (pid = qid →
      createRelationship db now pid qid c = (.sameId, db) ∧
      relCreateStatus RelCreateResponse.sameId = 400) ∧
    (pid ≠ qid → findUserById db pid = none →
      createRelationship db now pid qid c = (.parentNotFound, db) ∧
      relCreateStatus RelCreateResponse.parentNotFound = 404) ∧
    (pid ≠ qid → ∀ pu, findUserById db pid = some pu →
      findUserById db qid = none →
      createRelationship db now pid qid c = (.patientNotFound, db) ∧
      relCreateStatus RelCreateResponse.patientNotFound = 404) ∧
    (pid ≠ qid → ∀ pu qu, findUserById db pid = some pu →
      findUserById db qid = some qu → pu.recordType ≠ UserRecordType.PARENT →
      createRelationship db now pid qid c = (.parentWrongRole, db) ∧
      relCreateStatus RelCreateResponse.parentWrongRole = 400) ∧
    (pid ≠ qid → ∀ pu qu, findUserById db pid = some pu →
      findUserById db qid = some qu → pu.recordType = UserRecordType.PARENT →
      qu.recordType ≠ UserRecordType.PATIENT →
      createRelationship db now pid qid c = (.patientWrongRole, db) ∧
      relCreateStatus RelCreateResponse.patientWrongRole = 400) ∧
    (pid ≠ qid → ∀ pu qu, findUserById db pid = some pu →
      findUserById db qid = some qu → pu.recordType = UserRecordType.PARENT →
      qu.recordType = UserRecordType.PATIENT → pairExists db pid qid = true →
      createRelationship db now pid qid c = (.conflict, db) ∧
      relCreateStatus RelCreateResponse.conflict = 409) ∧
    (pid ≠ qid → ∀ pu qu, findUserById db pid = some pu →
      findUserById db qid = some qu → pu.recordType = UserRecordType.PARENT →
      qu.recordType = UserRecordType.PATIENT → pairExists db pid qid = false →
      createRelationship db now pid qid c =
        (.created { parentId := pid, patientId := qid, assignedAt := now },
         { db with relationships :=
            { parentId := pid, patientId := qid, assignedAt := now } ::
              db.relationships })) := by
  refine ⟨?_, ?_, ?_, ?_, ?_, ?_, ?_⟩
  · intro h
    exact ⟨by simp [createRelationship, hp, hq, h], rfl⟩
  · intro hne hfp
    exact ⟨by simp [createRelationship, hp, hq, hne, hfp], rfl⟩
  · intro hne pu hfp hfq
    exact ⟨by simp [createRelationship, hp, hq, hne, hfp, hfq], rfl⟩
  · intro hne pu qu hfp hfq hrp
    exact ⟨by simp [createRelationship, hp, hq, hne, hfp, hfq, hrp], rfl⟩
  · intro hne pu qu hfp hfq hrp hrq
    exact ⟨by simp [createRelationship, hp, hq, hne, hfp, hfq, hrp, hrq], rfl⟩
  · intro hne pu qu hfp hfq hrp hrq hpair
    exact ⟨by simp [createRelationship, hp, hq, hne, hfp, hfq, hrp, hrq, hpair], rfl⟩
  · intro hne pu qu hfp hfq hrp hrq hpair
    simp [createRelationship, hp, hq, hne, hfp, hfq, hrp, hrq, hpair]

def relDb0 : Db := { users := [parentUser0, patientUser0] }

/-- C8 witness: with both users present, the right roles and no existing
pair, the handler really creates the relationship row (the other branches
of c8_create_relationship_cases are exercised through its hypotheses). -/
theorem c8_create_relationship_witness :
    isUuidFormat "11111111-1111-1111-1111-111111111111" = true ∧
    isUuidFormat "22222222-2222-2222-2222-222222222222" = true ∧
    createRelationship relDb0 3 "11111111-1111-1111-1111-111111111111"
        "22222222-2222-2222-2222-222222222222" none =
      (.created { parentId := "11111111-1111-1111-1111-111111111111",
                  patientId := "22222222-2222-2222-2222-222222222222",
                  assignedAt := 3 },
       { relDb0 with relationships :=
          [{ parentId := "11111111-1111-1111-1111-111111111111",
             patientId := "22222222-2222-2222-2222-222222222222",
             assignedAt := 3 }] }) := by
  refine ⟨by decide, by decide, ?_⟩
  exact (c8_create_relationship_cases relDb0 3
      "11111111-1111-1111-1111-111111111111"
      "22222222-2222-2222-2222-222222222222" none (by decide) (by decide)).2.2.2.2.2.2
    (by decide) parentUser0 patientUser0 (by decide) (by decide) rfl rfl (by decide)

/-! ### C9 -/

/-- C9 counterexample: the claim reads — in-bounds coordinates, no device
matching the serial, result 404.  The request (0, 0, "") over the empty
store has in-bounds coordinates and matches no device, yet the handler
answers with the 400 validation failure, because the zod schema also
requires a nonempty serial number, which the claim omits. -/
theorem c9_ingest_claim_false_on_empty_serial :
    ¬ ((0 : Rat) < -90) ∧ ¬ ((90 : Rat) < 0) ∧ ¬ ((0 : Rat) < -180) ∧
    ¬ ((180 : Rat) < 0) ∧
    findLatestDeviceBySerial emptyDb "" = none ∧
    createGeolocation emptyDb 7 "g1" 0 0 "" none = (.validationFailed, emptyDb) ∧
    (createGeolocation emptyDb 7 "g1" 0 0 "" none).1 ≠ .deviceNotFound ∧
    geoCreateStatus GeoCreateResponse.validationFailed = 400 ∧
    geoCreateStatus GeoCreateResponse.deviceNotFound = 404 := by
  decide

/-- C9 amended: geolocation ingest — the request is rejected 400 with no
row created when latitude is outside [-90, 90], longitude is outside
[-180, 180], or the serial number is empty; otherwise 404 when no device
matches the serial; otherwise a new immutable geolocation with the
server-assigned timestamp is created for the most-recently-created device
matching that serial number. -/
theorem c9_geolocation_ingest (db : Db) (now : Nat) (fid : String)
    (lat lon : Rat) (sn : String) (c : Option SignedToken) :
    ((lat < -90 ∨ 90 < lat ∨ lon < -180 ∨ 180 < lon ∨ sn.length < 1) →
      createGeolocation db now fid lat lon sn c = (.validationFailed, db)) ∧
    (¬ (lat < -90 ∨ 90 < lat ∨ lon < -180 ∨ 180 < lon ∨ sn.length < 1) →
      findLatestDeviceBySerial db sn = none →
      createGeolocation db now fid lat lon sn c = (.deviceNotFound, db)) ∧
    (∀ d, ¬ (lat < -90 ∨ 90 < lat ∨ lon < -180 ∨ 180 < lon ∨ sn.length < 1) →
      findLatestDeviceBySerial db sn = some d →
      createGeolocation db now fid lat lon sn c =
        (.created { id := fid, latitude := lat, longitude := lon,
                    timestamp := now, deviceId := d.id },
         { db with geolocations :=
            { id := fid, latitude := lat, longitude := lon, timestamp := now,
              deviceId := d.id } :: db.geolocations })) ∧
    (∀ d, findLatestDeviceBySerial db sn = some d →
      d ∈ db.devices ∧ d.serialNumber = sn ∧
      ∀ e ∈ db.devices, e.serialNumber = sn → e.createdAt ≤ d.createdAt) := by
  refine ⟨?_, ?_, ?_, ?_⟩
  · intro h
    unfold createGeolocation
    rw [if_pos h]
  · intro h hf
    unfold createGeolocation
    rw [if_neg h, hf]
  · intro d h hf
    unfold createGeolocation
    rw [if_neg h, hf]
  · intro d hf
    unfold findLatestDeviceBySerial at hf
    have hmem := argmaxBy_mem hf
    have hmax := argmaxBy_maximal hf
    rw [List.mem_filter] at hmem
    refine ⟨hmem.1, by simpa using hmem.2, ?_⟩
    intro e he hesn
    exact hmax e (List.mem_filter.mpr ⟨he, by simp [hesn]⟩)

/-- The device created by the PATIENT registration fixture. -/
def dev0 : Device :=
  { id := "d1", serialNumber := "SN1",
    patientId := "22222222-2222-2222-2222-222222222222", createdAt := 2 }

def geoDb0 : Db := { users := [parentUser0, patientUser0], devices := [dev0] }

/-- C9 witness: an in-range ingest against a known serial creates the
point for the matching device with the server timestamp. -/
theorem c9_geolocation_ingest_witness :
    (¬ ((10 : Rat) < -90 ∨ (90 : Rat) < 10 ∨ (20 : Rat) < -180 ∨
        (180 : Rat) < 20 ∨ "SN1".length < 1)) ∧
    findLatestDeviceBySerial geoDb0 "SN1" = some dev0 ∧
    createGeolocation geoDb0 9 "g9" 10 20 "SN1" none =
      (.created { id := "g9", latitude := 10, longitude := 20, timestamp := 9,
                  deviceId := "d1" },
       { geoDb0 with geolocations :=
          [{ id := "g9", latitude := 10, longitude := 20, timestamp := 9,
             deviceId := "d1" }] }) := by
  refine ⟨by decide, by decide, ?_⟩
  exact (c9_geolocation_ingest geoDb0 9 "g9" 10 20 "SN1" none).2.2.1 dev0
    (by decide) (by decide)

/-! ### C10 -/

theorem string_ne_of_head_ne {s t : String}
    (h : s.data.head? ≠ t.data.head?) : s ≠ t :=
  fun e => h (by rw [e])

theorem someString_ne_of_head_ne {s t : String}
    (h : s.data.head? ≠ t.data.head?) : (some s : Option String) ≠ some t :=
  fun e => h (by rw [Option.some.inj e])

theorem patientMsg_head (pid : String) :
    ("Patient with ID " ++ pid ++ " not found.").data.head? = some 'P' := by
  rw [String.data_append, String.data_append]
  rfl

theorem noGeoMsg_head (sn : String) :
    ("No geolocation data found for device " ++ sn ++ ".").data.head? = some 'N' := by
  rw [String.data_append, String.data_append]
  rfl

/-- C10: the latest-location query — for every well-formed patientId it
resolves the id to a PATIENT-role user (else 404), then that patient's
most-recently-created device (else 404), then answers 200 with the single
geolocation of greatest timestamp among that device's records (else 404),
each failing step carrying its own distinct message. -/
theorem c10_latest_query (db : Db) (pid : String) (c : Option SignedToken)
    (hu : isUuidFormat pid = true) :
    (db.users.find? (fun u => u.id == pid && u.recordType == UserRecordType.PATIENT) = none →
      getLatestGeolocationByDevice db pid c = .patientNotFound pid) ∧
    (∀ u, db.users.find? (fun u => u.id == pid && u.recordType == UserRecordType.PATIENT) = some u →
      findLatestDeviceOfPatient db pid = none →
      getLatestGeolocationByDevice db pid c = .deviceNotFound) ∧
    (∀ u d, db.users.find? (fun u => u.id == pid && u.recordType == UserRecordType.PATIENT) = some u →
      findLatestDeviceOfPatient db pid = some d →
      findLatestGeoOfDevice db d.id = none →
      getLatestGeolocationByDevice db pid c = .noGeolocation d.serialNumber) ∧
    (∀ u d g, db.users.find? (fun u => u.id == pid && u.recordType == UserRecordType.PATIENT) = some u →
      findLatestDeviceOfPatient db pid = some d →
      findLatestGeoOfDevice db d.id = some g →
      getLatestGeolocationByDevice db pid c = .ok g ∧
      g ∈ db.geolocations ∧ g.deviceId = d.id ∧
      (∀ g2 ∈ db.geolocations, g2.deviceId = d.id → g2.timestamp ≤ g.timestamp) ∧
      d ∈ db.devices ∧ d.patientId = pid ∧
      (∀ d2 ∈ db.devices, d2.patientId = pid → d2.createdAt ≤ d.createdAt)) ∧
    (latestStatus (.patientNotFound pid) = 404 ∧
     latestStatus LatestResponse.deviceNotFound = 404 ∧
     (∀ sn, latestStatus (.noGeolocation sn) = 404) ∧
     (∀ g, latestStatus (.ok g) = 200)) ∧
    (∀ sn, latestMessage (.patientNotFound pid) ≠ latestMessage LatestResponse.deviceNotFound ∧
      latestMessage (.patientNotFound pid) ≠ latestMessage (.noGeolocation sn) ∧
      latestMessage LatestResponse.deviceNotFound ≠ latestMessage (.noGeolocation sn)) := by
  refine ⟨?_, ?_, ?_, ?_, ⟨rfl, rfl, fun _ => rfl, fun _ => rfl⟩, ?_⟩
  · intro hfind
    simp [getLatestGeolocationByDevice, hu, hfind]
  · intro u hfind hdev
    simp [getLatestGeolocationByDevice, hu, hfind, hdev]
  · intro u d hfind hdev hgeo
    simp [getLatestGeolocationByDevice, hu, hfind, hdev, hgeo]
  · intro u d g hfind hdev hgeo
    refine ⟨by simp [getLatestGeolocationByDevice, hu, hfind, hdev, hgeo], ?_, ?_, ?_, ?_, ?_, ?_⟩
    · have hmem := argmaxBy_mem hgeo
      exact (List.mem_filter.mp hmem).1
    · have hmem := argmaxBy_mem hgeo
      simpa using (List.mem_filter.mp hmem).2
    · intro g2 hg2 hgid
      exact argmaxBy_maximal hgeo g2 (List.mem_filter.mpr ⟨hg2, by simp [hgid]⟩)
    · have hmem := argmaxBy_mem hdev
      exact (List.mem_filter.mp hmem).1
    · have hmem := argmaxBy_mem hdev
      simpa using (List.mem_filter.mp hmem).2
    · intro d2 hd2 hdid
      exact argmaxBy_maximal hdev d2 (List.mem_filter.mpr ⟨hd2, by simp [hdid]⟩)
  · intro sn
    refine ⟨?_, ?_, ?_⟩
    · exact someString_ne_of_head_ne (by rw [patientMsg_head]; decide)
    · exact someString_ne_of_head_ne (by rw [patientMsg_head, noGeoMsg_head]; decide)
    · exact someString_ne_of_head_ne (by rw [noGeoMsg_head]; decide)

def geo1 : Geolocation :=
  { id := "g1", latitude := 10, longitude := 20, timestamp := 1, deviceId := "d1" }

def geo2 : Geolocation :=
  { id := "g2", latitude := 11, longitude := 21, timestamp := 5, deviceId := "d1" }

def latestDb0 : Db :=
  { users := [parentUser0, patientUser0], devices := [dev0],
    geolocations := [geo1, geo2] }

/-- C10 witness: with two points for the patient device, the query returns
the later one (timestamp 5), not the original. -/
theorem c10_latest_query_witness :
    isUuidFormat "22222222-2222-2222-2222-222222222222" = true ∧
    latestDb0.users.find?
      (fun u => u.id == "22222222-2222-2222-2222-222222222222" &&
        u.recordType == UserRecordType.PATIENT) = some patientUser0 ∧
    findLatestDeviceOfPatient latestDb0 "22222222-2222-2222-2222-222222222222" = some dev0 ∧
    findLatestGeoOfDevice latestDb0 "d1" = some geo2 ∧
    (getLatestGeolocationByDevice latestDb0 "22222222-2222-2222-2222-222222222222" none = .ok geo2 ∧
     geo2 ∈ latestDb0.geolocations ∧ geo2.deviceId = dev0.id ∧
     (∀ g2 ∈ latestDb0.geolocations, g2.deviceId = dev0.id → g2.timestamp ≤ geo2.timestamp) ∧
     dev0 ∈ latestDb0.devices ∧ dev0.patientId = "22222222-2222-2222-2222-222222222222" ∧
     (∀ d2 ∈ latestDb0.devices, d2.patientId = "22222222-2222-2222-2222-222222222222" →
        d2.createdAt ≤ dev0.createdAt)) := by
  refine ⟨by decide, by decide, by decide, by decide, ?_⟩
  exact (c10_latest_query latestDb0 "22222222-2222-2222-2222-222222222222" none
      (by decide)).2.2.2.1 patientUser0 dev0 geo2 (by decide) (by decide) (by decide)

end Sensafe
